import Mathlib

/-!
Shallow embedding of `src/main.py`, a TradingView-webhook → Coinbase
Advanced Trade bot, together with proofs about its behaviour.

Conventions of the embedding:
* Python floats are modelled as exact rationals (`ℚ`); the quantities the
  program handles (USD amounts, balances, prices, sizes) are decimal inputs.
* Python strings are Lean `String`s; `str.strip() / .upper() / .lower() /
  .split()` are embedded explicitly (ASCII case mapping, as the program only
  compares ASCII keywords and symbols).
* Network effects are modelled by an `Exchange` oracle describing what the
  exchange would answer, and by an explicit trace of outbound call events
  (one `sign` and one `http` event per REST helper invocation).
* `None`-able JSON fields are `Option` fields; Python truthiness of strings
  and numbers is made explicit at each use site.
-/

namespace TVBot

/-! ## Python string primitives -/

/-- Embedding of Python `str.strip` on the character list: drop whitespace
from the front, then from the back. -/
def rstripL (l : List Char) : List Char :=
  (l.reverse.dropWhile Char.isWhitespace).reverse

/-- Leading-whitespace drop followed by trailing-whitespace drop, the
character-list core of Python `str.strip`. -/
def stripL (l : List Char) : List Char :=
  rstripL (l.dropWhile Char.isWhitespace)

/-- Python `str.strip()`. -/
def pyStrip (s : String) : String := ⟨stripL s.data⟩

/-- Python `str.upper()` on one ASCII character: `a`–`z` map to `A`–`Z`,
everything else is unchanged. -/
def pyCharUpper (c : Char) : Char :=
  if 97 ≤ c.toNat ∧ c.toNat ≤ 122 then Char.ofNat (c.toNat - 32) else c

/-- Python `str.lower()` on one ASCII character: `A`–`Z` map to `a`–`z`,
everything else is unchanged. -/
def pyCharLower (c : Char) : Char :=
  if 65 ≤ c.toNat ∧ c.toNat ≤ 90 then Char.ofNat (c.toNat + 32) else c

/-- Python `str.upper()`. -/
def pyUpper (s : String) : String := ⟨s.data.map pyCharUpper⟩

/-- Python `str.lower()`. -/
def pyLower (s : String) : String := ⟨s.data.map pyCharLower⟩

/-- Worker for `pySplit`: `acc` holds the characters of the token currently
being read, in reverse. -/
def splitWsL : List Char → List Char → List String
  | [], acc => if acc.isEmpty then [] else [⟨acc.reverse⟩]
  | c :: rest, acc =>
    if c.isWhitespace then
      if acc.isEmpty then splitWsL rest [] else ⟨acc.reverse⟩ :: splitWsL rest []
    else splitWsL rest (c :: acc)

/-- Python `str.split()` (no argument): split on runs of whitespace,
producing no empty tokens. -/
def pySplit (s : String) : List String := splitWsL s.data []

/-- Does `l` start with `pat`? (Python `str.startswith`, character level.) -/
def startsWithL : List Char → List Char → Bool
  | _, [] => true
  | [], _ :: _ => false
  | c :: cs, p :: ps => c == p && startsWithL cs ps

/-- Python `s.startswith(pat)`. -/
def pyStartsWith (s pat : String) : Bool := startsWithL s.data pat.data

/-- Does `l` end with `pat`? (Python `str.endswith`, character level.) -/
def endsWithL (l pat : List Char) : Bool := startsWithL l.reverse pat.reverse

/-! ## Module constants (`src/main.py` lines 24–26, 107, 142–147) -/

def COINBASE_API_URL : String := "https://api.coinbase.com"
def PRODUCT_ID : String := "BTC-USDC"
def DEFAULT_USD_AMOUNT : ℚ := 50
def DEF_HOST : String := "api.coinbase.com"
def ACCOUNTS_PATH : String := "/api/v3/brokerage/accounts"
def ORDERS_PATH : String := "/api/v3/brokerage/orders"
def BEST_BID_ASK_PATH : String := "/api/v3/brokerage/best_bid_ask"
def FILLS_PATH : String := "/api/v3/brokerage/orders/historical/fills"
def TRANSACTION_SUMMARY_PATH : String := "/api/v3/brokerage/transaction_summary"

/-- `ORDER_DETAILS_PATH_TMPL.format(order_id=order_id)`. -/
def order_details_path (order_id : String) : String :=
  "/api/v3/brokerage/orders/historical/" ++ order_id

/-! ## JWT construction (`build_uri`, `create_jwt`) -/

/-- `build_uri(method, path, host)`: the `uri` claim string
`f"{method.upper()} {host}{path}"`. -/
def build_uri (method path host : String) : String :=
  pyUpper method ++ " " ++ host ++ path

/-- The claim set of the token produced by `create_jwt` (the ES256
signature itself is outside the model; the claims are what the code puts
in `payload`). -/
structure JwtPayload where
  iss : String
  sub : String
  nbf : ℤ
  exp : ℤ
  uri : String
deriving DecidableEq, Repr

/-- `create_jwt(method, path)` claim construction: `now = int(time.time())`
is passed in as `now`; the key name comes from the environment. -/
def create_jwt_payload (keyName : String) (now : ℤ) (method path : String) :
    JwtPayload :=
  { iss := "cdp"
    sub := keyName
    nbf := now
    exp := now + 120
    uri := build_uri method path DEF_HOST }

/-! ## Order construction (`place_market_order`) -/

/-- The `market_market_ioc` order configuration: at most one of the two
sizing fields is set by the code. Values are the rationals whose decimal
rendering `str(...)` the code sends. -/
structure MarketIoc where
  quote_size : Option ℚ
  base_size : Option ℚ
deriving DecidableEq, Repr

/-- The order dict built by `place_market_order`. `client_order_id` is the
integer `int(time.time() * 1000)`; the code sends its (injective) decimal
rendering `str(...)`. -/
structure Order where
  client_order_id : ℕ
  product_id : String
  side : String
  order_configuration : MarketIoc
deriving DecidableEq, Repr

/-- Python `usd_amount or DEFAULT_USD_AMOUNT` for an optional float:
`None` and `0.0` are falsy, every other float is truthy. -/
def pyOrQ (x : Option ℚ) (d : ℚ) : ℚ :=
  match x with
  | none => d
  | some v => if v = 0 then d else v

/-- The pure part of `place_market_order(side, usd_amount, base_size)`:
the order dict it POSTs, or the `ValueError` it raises for a sell without
a `base_size`. `nowMs` is `int(time.time() * 1000)`. -/
def build_market_order (nowMs : ℕ) (side : String) (usd_amount : Option ℚ)
    (base_size : Option ℚ) : Except String Order :=
  if pyLower side = "buy" then
    .ok { client_order_id := nowMs
          product_id := PRODUCT_ID
          side := pyUpper side
          order_configuration :=
            { quote_size := some (pyOrQ usd_amount DEFAULT_USD_AMOUNT)
              base_size := none } }
  else
    match base_size with
    | none => .error "SELL requires base_size (BTC amount)."
    | some b =>
      .ok { client_order_id := nowMs
            product_id := PRODUCT_ID
            side := pyUpper side
            order_configuration := { quote_size := none, base_size := some b } }

/-! ## Environment, exchange oracle, call trace, notifications -/

/-- The two env vars `require_env` checks. `none` models an unset variable;
`some ""` is falsy as well, like in Python. -/
structure Env where
  apiKeyName : Option String
  privateKey : Option String
deriving DecidableEq, Repr

/-- Python truthiness of an optional string. -/
def pyTruthyStr : Option String → Bool
  | none => false
  | some s => !(s.isEmpty)

/-- `require_env()` succeeds iff both variables are truthy. -/
def require_env_ok (e : Env) : Bool :=
  pyTruthyStr e.apiKeyName && pyTruthyStr e.privateKey

/-- One entry of the accounts JSON: `currency` and
`available_balance.value` (already parsed; `none` models a missing or
empty value, which is falsy in the code's `if val and float(val) > 0`). -/
structure Account where
  currency : Option String
  available_value : Option ℚ
deriving DecidableEq, Repr

/-- Oracle for what the exchange answers during one webhook request:
status and body of the accounts fetch, status of the order POST, the
`success_response.order_id` field of the order response (if any), and the
best-bid-ask mid price. -/
structure Exchange where
  accountsStatus : ℕ
  accounts : List Account
  orderStatus : ℕ
  orderId : Option String
  bestBidAsk : Option ℚ
deriving DecidableEq, Repr

/-- An outbound-call event: building a signed token for `method path`
(`auth_headers` → `create_jwt`), or the HTTP request itself. -/
inductive CallEvent where
  | sign (method path : String)
  | http (method path : String)
deriving DecidableEq, Repr

/-- Every REST helper first signs, then issues the HTTP call. -/
def restCall (method path : String) : List CallEvent :=
  [.sign method path, .http method path]

/-- One `send_telegram` call site of the webhook handler. -/
inductive Notification where
  | badPayloadErr
  | envErr
  | buyExecuted (usd : ℚ)
  | buyFailed
  | sellExecuted (base : ℚ)
  | sellFailed
  | accountsFailedErr
  | noBalanceErr
  | unhandledErr
deriving DecidableEq, Repr

/-- The JSON body the webhook answers with, by call site. -/
inductive Resp where
  | orderPlaced (action : String)
  | badPayload
  | envError
  | invalidAction
  | unsupportedSymbol (symbol : String)
  | orderFailed
  | accountsFailed
  | noBalance
  | unhandled
deriving DecidableEq, Repr

/-- Everything observable about one webhook request: the response body
kind, the HTTP status, the orders POSTed, the outbound sign/http events in
order, and the Telegram notifications sent. -/
structure WebhookOut where
  resp : Resp
  status : ℕ
  orders : List Order
  calls : List CallEvent
  notifications : List Notification
deriving DecidableEq, Repr

/-! ## Signal normalisation (webhook lines 252–289) -/

/-- A JSON object body as the webhook reads it: `action`, `symbol`, and
`usd_amount` (the latter `none` when the field is absent or `float(...)`
on it fails, both of which the code sends to the default). -/
structure JsonData where
  action : Option String
  symbol : Option String
  usd_amount : Option ℚ
deriving DecidableEq, Repr

/-- A raw request body: `json` is `some d` exactly when `json.loads`
succeeds (with an object result), and `text` is the raw decoded text used
by the plain-text fallback. -/
structure RawBody where
  json : Option JsonData
  text : String
deriving DecidableEq, Repr

/-- The token scan of the plain-text fallback: first whitespace-delimited
token equal to `BTCUSDC` or `BTC-USDC`. -/
def scan_symbol (tokens : List String) : Option String :=
  tokens.find? fun t => t == "BTCUSDC" || t == "BTC-USDC"

/-- Lines 252–271: parse JSON, else synthesize `{action, symbol}` from a
body starting with `BUY`/`SELL`, else fail (`none` = the 400 BadPayload
return). -/
def parse_body (raw : RawBody) : Option JsonData :=
  match raw.json with
  | some d => some d
  | none =>
    let upper := pyUpper (pyStrip raw.text)
    if pyStartsWith upper "BUY" then
      some { action := some "buy"
             symbol := some ((scan_symbol (pySplit upper)).getD PRODUCT_ID)
             usd_amount := none }
    else if pyStartsWith upper "SELL" then
      some { action := some "sell"
             symbol := some ((scan_symbol (pySplit upper)).getD PRODUCT_ID)
             usd_amount := none }
    else none

/-- Lines 281–283: `symbol = (data.get("symbol") or "").strip().upper()`,
then the single special case `BTCUSDC → BTC-USDC`. -/
def normalize_symbol (s : String) : String :=
  let u := pyUpper (pyStrip s)
  if u = "BTCUSDC" then "BTC-USDC" else u

/-- Lines 325–331: scan the accounts list for the first `BTC` entry whose
`available_balance.value` is truthy and parses to a positive float; that
value becomes `base_size`. -/
def find_btc_base_size : List Account → Option ℚ
  | [] => none
  | a :: rest =>
    if a.currency = some "BTC" then
      match a.available_value with
      | some v => if 0 < v then some v else find_btc_base_size rest
      | none => find_btc_base_size rest
    else find_btc_base_size rest

/-! ## The webhook handler (lines 246–355) -/

/-- The `/webhook` POST handler. `env` is the credential environment,
`ex` the exchange oracle, `nowMs` the value of `int(time.time() * 1000)`
at order construction, `raw` the request body. -/
def webhook (env : Env) (ex : Exchange) (nowMs : ℕ) (raw : RawBody) :
    WebhookOut :=
  match parse_body raw with
  | none =>
    { resp := .badPayload, status := 400, orders := [], calls := []
      notifications := [.badPayloadErr] }
  | some data =>
    if !(require_env_ok env) then
      { resp := .envError, status := 500, orders := [], calls := []
        notifications := [.envErr] }
    else
      let action := pyLower (pyStrip (data.action.getD ""))
      let symbol := normalize_symbol (data.symbol.getD "")
      if !(action = "buy" || action = "sell") then
        { resp := .invalidAction, status := 400, orders := [], calls := []
          notifications := [] }
      else if symbol ≠ PRODUCT_ID then
        { resp := .unsupportedSymbol symbol, status := 400, orders := []
          calls := [], notifications := [] }
      else if action = "buy" then
        let usd := data.usd_amount.getD DEFAULT_USD_AMOUNT
        match build_market_order nowMs "buy" (some usd) none with
        | .error _ =>
          { resp := .unhandled, status := 500, orders := [], calls := []
            notifications := [.unhandledErr] }
        | .ok o =>
          let callsO := restCall "POST" ORDERS_PATH
          if ex.orderStatus < 300 then
            let extra :=
              match ex.orderId with
              | some oid =>
                restCall "GET" (order_details_path oid) ++
                  restCall "GET" FILLS_PATH
              | none => []
            { resp := .orderPlaced "buy", status := 200, orders := [o]
              calls := callsO ++ extra, notifications := [.buyExecuted usd] }
          else
            { resp := .orderFailed, status := 400, orders := [o]
              calls := callsO, notifications := [.buyFailed] }
      else
        let callsA := restCall "GET" ACCOUNTS_PATH
        if 300 ≤ ex.accountsStatus then
          { resp := .accountsFailed, status := 400, orders := []
            calls := callsA, notifications := [.accountsFailedErr] }
        else
          match find_btc_base_size ex.accounts with
          | none =>
            { resp := .noBalance, status := 400, orders := []
              calls := callsA, notifications := [.noBalanceErr] }
          | some b =>
            match build_market_order nowMs "sell" none (some b) with
            | .error _ =>
              { resp := .unhandled, status := 500, orders := []
                calls := callsA, notifications := [.unhandledErr] }
            | .ok o =>
              let callsO := restCall "POST" ORDERS_PATH
              if ex.orderStatus < 300 then
                { resp := .orderPlaced "sell", status := 200, orders := [o]
                  calls := callsA ++ callsO ++ restCall "GET" BEST_BID_ASK_PATH
                  notifications := [.sellExecuted b] }
              else
                { resp := .orderFailed, status := 400, orders := [o]
                  calls := callsA ++ callsO, notifications := [.sellFailed] }

/-! ## Daily PnL aggregation (`compute_daily_pnl_and_notify`, lines 389–429) -/

/-- One fill record as read by the aggregation loop: `side` (before the
code's `.upper()`), `price`, `size`, `fee` (each `float(... or 0.0)`), and
`trade_time` as `some ts` when the timestamp string parses to epoch time
`ts`, `none` when it is missing or unparseable. -/
structure Fill where
  side : String
  price : ℚ
  size : ℚ
  fee : ℚ
  trade_time : Option ℚ
deriving DecidableEq, Repr

/-- The report the aggregation computes before formatting. -/
structure PnlReport where
  buys_usd : ℚ
  sells_usd : ℚ
  fees_usd : ℚ
  net_pnl : ℚ
  trade_count : ℕ
deriving DecidableEq, Repr

/-- The loop's guard: `ts_ok and size > 0`, with `ts_ok` true when the
timestamp is missing/unparseable (conservative retention) and otherwise
true iff the fill is within the window (`dt.timestamp() >= cutoff`). -/
def fill_counted (cutoff : ℚ) (f : Fill) : Bool :=
  (match f.trade_time with
   | some ts => decide (cutoff ≤ ts)
   | none => true) && decide (0 < f.size)

/-- One fill's notional value: `price * size if price > 0 else 0.0`. -/
def fill_usd (f : Fill) : ℚ :=
  if 0 < f.price then f.price * f.size else 0

/-- The accumulation of `compute_daily_pnl_and_notify` over the fetched
fills: `cutoff = now - 24 * 3600`; a fill is counted when `ts_ok` and its
size is positive; buy-side and sell-side notionals and fees are summed
and `net_pnl = sells_usd - buys_usd - fees_usd`. -/
def compute_daily_pnl (now : ℚ) (fills : List Fill) : PnlReport :=
  let cutoff := now - 24 * 3600
  let counted := fills.filter (fill_counted cutoff)
  let buys :=
    ((counted.filter fun f => pyUpper f.side == "BUY").map fill_usd).sum
  let sells :=
    ((counted.filter fun f => pyUpper f.side == "SELL").map fill_usd).sum
  let fees := (counted.map Fill.fee).sum
  { buys_usd := buys
    sells_usd := sells
    fees_usd := fees
    net_pnl := sells - buys - fees
    trade_count := counted.length }

/-- Symbol normalization as the specification's §4.4 step 3 words it
(refinement comparison only — this is not code of the repository): pass
through symbols containing the separator, else strip a known quote suffix
(USDC, USDT, USD in that order) and re-insert the separator. -/
def normalize_symbol_described (s : String) : String :=
  let u := pyUpper (pyStrip s)
  if u.data.contains '-' then u
  else if endsWithL u.data "USDC".data then
    ⟨u.data.take (u.data.length - 4)⟩ ++ "-USDC"
  else if endsWithL u.data "USDT".data then
    ⟨u.data.take (u.data.length - 4)⟩ ++ "-USDT"
  else if endsWithL u.data "USD".data then
    ⟨u.data.take (u.data.length - 3)⟩ ++ "-USD"
  else u

/-! ## Fixtures for closed witnesses and counterexamples -/

def envFix : Env := { apiKeyName := some "key", privateKey := some "pem" }

def exFix : Exchange :=
  { accountsStatus := 200, accounts := [], orderStatus := 200
    orderId := none, bestBidAsk := none }

def exOrderFail : Exchange :=
  { accountsStatus := 200, accounts := [], orderStatus := 503
    orderId := none, bestBidAsk := none }

def exSell : Exchange :=
  { accountsStatus := 200
    accounts :=
      [ { currency := some "USD", available_value := some 10 },
        { currency := some "BTC", available_value := some 2 } ]
    orderStatus := 200, orderId := none, bestBidAsk := some 60000 }

def rawBuy100 : RawBody :=
  { json := some { action := some "buy", symbol := some "BTCUSDC"
                   usd_amount := some 100 }
    text := "" }

def rawBuyNeg : RawBody :=
  { json := some { action := some "buy", symbol := some "BTC-USDC"
                   usd_amount := some (-5) }
    text := "" }

def rawBuyPlain : RawBody :=
  { json := some { action := some "buy", symbol := some "BTC-USDC"
                   usd_amount := some 25 }
    text := "" }

def rawSell : RawBody :=
  { json := some { action := some "sell", symbol := some "BTC-USDC"
                   usd_amount := none }
    text := "" }

def rawAlert : RawBody :=
  { json := some { action := some "alert", symbol := some "BTC-USDC"
                   usd_amount := none }
    text := "" }

def rawHold : RawBody :=
  { json := some { action := some "hold", symbol := some "BTC-USDC"
                   usd_amount := none }
    text := "" }

def rawTextBuy : RawBody := { json := none, text := "BUY BTCUSDC 42" }

/-- Which notifications are the code's "Error alert" Telegram pushes. -/
def is_error_alert : Notification → Bool
  | .buyFailed => true
  | .sellFailed => true
  | .accountsFailedErr => true
  | .noBalanceErr => true
  | .unhandledErr => true
  | _ => false


/-! ## Helper lemmas about the string primitives -/

theorem length_dropWhile_le (p : Char → Bool) (l : List Char) :
    (l.dropWhile p).length ≤ l.length := by
  induction l with
  | nil => simp
  | cons a t ih =>
    rw [List.dropWhile_cons]
    split
    · exact Nat.le_succ_of_le ih
    · simp

theorem dropWhile_dropWhile (p : Char → Bool) (l : List Char) :
    (l.dropWhile p).dropWhile p = l.dropWhile p := by
  induction l with
  | nil => simp
  | cons a t ih =>
    rw [List.dropWhile_cons]
    split
    · exact ih
    · rw [List.dropWhile_cons]
      simp_all

theorem head_not_ws_of_dropWhile_eq {a : Char} {t : List Char}
    (h : (a :: t).dropWhile Char.isWhitespace = a :: t) :
    a.isWhitespace = false := by
  by_contra hw
  rw [List.dropWhile_cons] at h
  simp only [Bool.not_eq_false] at hw
  rw [if_pos hw] at h
  have := length_dropWhile_le Char.isWhitespace t
  have := congrArg List.length h
  simp at this
  omega

theorem rstripL_frontClean (l : List Char)
    (h : l.dropWhile Char.isWhitespace = l) :
    (rstripL l).dropWhile Char.isWhitespace = rstripL l := by
  cases l with
  | nil => simp [rstripL]
  | cons a t =>
    have ha : a.isWhitespace = false := head_not_ws_of_dropWhile_eq h
    rw [rstripL]
    rw [show (a :: t).reverse = t.reverse ++ [a] by simp]
    rw [List.dropWhile_append]
    split
    · simp [List.dropWhile_cons, ha]
    · rw [List.reverse_append]
      simp [List.dropWhile_cons, ha]

theorem rstripL_idem (l : List Char) : rstripL (rstripL l) = rstripL l := by
  rw [rstripL, rstripL, List.reverse_reverse, dropWhile_dropWhile, ← rstripL]

theorem stripL_idem (l : List Char) : stripL (stripL l) = stripL l := by
  rw [stripL, stripL]
  rw [rstripL_frontClean _ (dropWhile_dropWhile _ _), rstripL_idem]

theorem char_toNat_ofNat (n : ℕ) (h : n < 55296) : (Char.ofNat n).toNat = n := by
  rw [Char.ofNat, dif_pos (Or.inl h : n.isValidChar)]
  rfl

theorem char_not_ws_of_ge {c : Char} (h : 33 ≤ c.toNat) :
    c.isWhitespace = false := by
  have h1 : c ≠ ' ' := fun e => by subst e; exact absurd h (by decide)
  have h2 : c ≠ '\t' := fun e => by subst e; exact absurd h (by decide)
  have h3 : c ≠ '\r' := fun e => by subst e; exact absurd h (by decide)
  have h4 : c ≠ '\n' := fun e => by subst e; exact absurd h (by decide)
  simp [Char.isWhitespace, h1, h2, h3, h4]

theorem pyCharUpper_toNat {c : Char} (h : 97 ≤ c.toNat ∧ c.toNat ≤ 122) :
    (pyCharUpper c).toNat = c.toNat - 32 := by
  rw [pyCharUpper, if_pos h]
  exact char_toNat_ofNat _ (by omega)

theorem pyCharUpper_idem (c : Char) :
    pyCharUpper (pyCharUpper c) = pyCharUpper c := by
  by_cases h : 97 ≤ c.toNat ∧ c.toNat ≤ 122
  · have hu := pyCharUpper_toNat h
    conv_lhs => rw [pyCharUpper]
    rw [if_neg (by omega)]
  · have hc : pyCharUpper c = c := by rw [pyCharUpper, if_neg h]
    rw [hc]
    exact hc

theorem pyCharUpper_ws (c : Char) :
    (pyCharUpper c).isWhitespace = c.isWhitespace := by
  by_cases h : 97 ≤ c.toNat ∧ c.toNat ≤ 122
  · have hu := pyCharUpper_toNat h
    rw [char_not_ws_of_ge (by omega), char_not_ws_of_ge (by omega)]
  · rw [pyCharUpper, if_neg h]

theorem dropWhile_ws_map_upper (l : List Char) :
    (l.map pyCharUpper).dropWhile Char.isWhitespace =
      (l.dropWhile Char.isWhitespace).map pyCharUpper := by
  rw [List.dropWhile_map]
  rw [show (Char.isWhitespace ∘ pyCharUpper) = Char.isWhitespace from
    funext fun c => pyCharUpper_ws c]

theorem rstripL_map_upper (l : List Char) :
    rstripL (l.map pyCharUpper) = (rstripL l).map pyCharUpper := by
  rw [rstripL, rstripL, ← List.map_reverse, dropWhile_ws_map_upper,
    List.map_reverse]

theorem stripL_map_upper (l : List Char) :
    stripL (l.map pyCharUpper) = (stripL l).map pyCharUpper := by
  rw [stripL, stripL, dropWhile_ws_map_upper, rstripL_map_upper]

theorem map_upper_idem (l : List Char) :
    (l.map pyCharUpper).map pyCharUpper = l.map pyCharUpper := by
  rw [List.map_map]
  exact List.map_congr_left fun c _ => pyCharUpper_idem c

theorem upper_strip_proj (s : String) :
    pyUpper (pyStrip (pyUpper (pyStrip s))) = pyUpper (pyStrip s) := by
  show (⟨((stripL ((stripL s.data).map pyCharUpper))).map pyCharUpper⟩ : String) =
    ⟨(stripL s.data).map pyCharUpper⟩
  rw [stripL_map_upper, stripL_idem, map_upper_idem]

/-! ## C3 — JWT claim binding -/

/-- C3. For every method and path (and key name and clock value), the
token payload built by `create_jwt` has `exp` exactly 120 seconds after
`nbf`, and its `uri` claim is the upper-cased method, the fixed host
`api.coinbase.com`, and the request path. -/
theorem create_jwt_claims_spec (keyName : String) (now : ℤ)
    (method path : String) :
    (create_jwt_payload keyName now method path).exp =
        (create_jwt_payload keyName now method path).nbf + 120 ∧
      (create_jwt_payload keyName now method path).uri =
        pyUpper method ++ " " ++ DEF_HOST ++ path := by
  exact ⟨rfl, rfl⟩

/-! ## C4 — symbol normalization -/

/-- C4 counterexample. The code does not strip quote-currency suffixes:
on `"ETHUSDC"` it yields `"ETHUSDC"` unchanged, where the claimed
suffix-stripping rule would give `"ETH-USDC"`. -/
theorem normalize_symbol_no_suffix_strip :
    normalize_symbol "ETHUSDC" = "ETHUSDC" ∧
      normalize_symbol_described "ETHUSDC" = "ETH-USDC" ∧
      normalize_symbol "ETHUSDC" ≠ normalize_symbol_described "ETHUSDC" := by
  refine ⟨by decide, by decide, by decide⟩

/-- C4 amended. Symbol normalization trims and upper-cases the input and
maps the single exact symbol `BTCUSDC` to `BTC-USDC`; no general
quote-suffix stripping is performed. It is idempotent, `"BTC-USDC"`
normalizes to itself, and `"BTCUSDC"` and `"btcusdc"` both normalize to
`"BTC-USDC"`. -/
theorem normalize_symbol_amended :
    (∀ s : String, normalize_symbol (normalize_symbol s) =
      normalize_symbol s) ∧
      normalize_symbol "BTC-USDC" = "BTC-USDC" ∧
      normalize_symbol "BTCUSDC" = "BTC-USDC" ∧
      normalize_symbol "btcusdc" = "BTC-USDC" := by
  refine ⟨fun s => ?_, by decide, by decide, by decide⟩
  by_cases h : pyUpper (pyStrip s) = "BTCUSDC"
  · have hs : normalize_symbol s = "BTC-USDC" := by
      rw [normalize_symbol, if_pos h]
    rw [hs]
    decide
  · have hs : normalize_symbol s = pyUpper (pyStrip s) := by
      rw [normalize_symbol, if_neg h]
    rw [hs, normalize_symbol, upper_strip_proj, if_neg h]

/-! ## Reduction lemmas for the webhook pipeline -/

theorem pyLower_buy : pyLower "buy" = "buy" := rfl

theorem pyUpper_buy : pyUpper "buy" = "BUY" := rfl

theorem pyLower_sell : pyLower "sell" = "sell" := rfl

theorem pyUpper_sell : pyUpper "sell" = "SELL" := rfl

theorem build_buy (nowMs : ℕ) (usd : Option ℚ) :
    build_market_order nowMs "buy" usd none =
      .ok { client_order_id := nowMs, product_id := PRODUCT_ID, side := "BUY"
            order_configuration :=
              { quote_size := some (pyOrQ usd DEFAULT_USD_AMOUNT)
                base_size := none } } := rfl

theorem build_sell (nowMs : ℕ) (b : ℚ) :
    build_market_order nowMs "sell" none (some b) =
      .ok { client_order_id := nowMs, product_id := PRODUCT_ID, side := "SELL"
            order_configuration := { quote_size := none, base_size := some b } } :=
  rfl

/-- Fully reduced form of the webhook on a JSON buy instruction whose
symbol normalizes to the supported product, in a healthy environment. -/
theorem webhook_buy_shape (env : Env) (ex : Exchange) (nowMs : ℕ)
    (raw : RawBody) (d : JsonData)
    (hp : parse_body raw = some d)
    (henv : require_env_ok env = true)
    (hact : pyLower (pyStrip (d.action.getD "")) = "buy")
    (hsym : normalize_symbol (d.symbol.getD "") = PRODUCT_ID) :
    webhook env ex nowMs raw =
      (let usd := d.usd_amount.getD DEFAULT_USD_AMOUNT
       let o : Order :=
         { client_order_id := nowMs, product_id := PRODUCT_ID, side := "BUY"
           order_configuration :=
             { quote_size := some (pyOrQ (some usd) DEFAULT_USD_AMOUNT)
               base_size := none } }
       if ex.orderStatus < 300 then
         { resp := .orderPlaced "buy", status := 200, orders := [o]
           calls := restCall "POST" ORDERS_PATH ++
             (match ex.orderId with
              | some oid =>
                restCall "GET" (order_details_path oid) ++
                  restCall "GET" FILLS_PATH
              | none => [])
           notifications := [.buyExecuted usd] }
       else
         { resp := .orderFailed, status := 400, orders := [o]
           calls := restCall "POST" ORDERS_PATH
           notifications := [.buyFailed] }) := by
  simp only [webhook, hp, henv, hact, hsym, build_buy, Bool.not_true,
    Bool.false_eq_true, if_false]
  simp

/-- Fully reduced form of the webhook on a JSON sell instruction whose
symbol normalizes to the supported product, in a healthy environment. -/
theorem webhook_sell_shape (env : Env) (ex : Exchange) (nowMs : ℕ)
    (raw : RawBody) (d : JsonData)
    (hp : parse_body raw = some d)
    (henv : require_env_ok env = true)
    (hact : pyLower (pyStrip (d.action.getD "")) = "sell")
    (hsym : normalize_symbol (d.symbol.getD "") = PRODUCT_ID) :
    webhook env ex nowMs raw =
      (if 300 ≤ ex.accountsStatus then
         { resp := .accountsFailed, status := 400, orders := []
           calls := restCall "GET" ACCOUNTS_PATH
           notifications := [.accountsFailedErr] }
       else
         match find_btc_base_size ex.accounts with
         | none =>
           { resp := .noBalance, status := 400, orders := []
             calls := restCall "GET" ACCOUNTS_PATH
             notifications := [.noBalanceErr] }
         | some b =>
           let o : Order :=
             { client_order_id := nowMs, product_id := PRODUCT_ID
               side := "SELL"
               order_configuration :=
                 { quote_size := none, base_size := some b } }
           if ex.orderStatus < 300 then
             { resp := .orderPlaced "sell", status := 200, orders := [o]
               calls := restCall "GET" ACCOUNTS_PATH ++
                 restCall "POST" ORDERS_PATH ++
                 restCall "GET" BEST_BID_ASK_PATH
               notifications := [.sellExecuted b] }
           else
             { resp := .orderFailed, status := 400, orders := [o]
               calls := restCall "GET" ACCOUNTS_PATH ++
                 restCall "POST" ORDERS_PATH
               notifications := [.sellFailed] }) := by
  simp only [webhook, hp, henv, hact, hsym, build_sell, Bool.not_true,
    Bool.false_eq_true, if_false]
  simp

theorem parse_body_json (raw : RawBody) (d : JsonData)
    (hjson : raw.json = some d) : parse_body raw = some d := by
  rw [parse_body, hjson]

theorem find_btc_base_size_mem (l : List Account) (b : ℚ)
    (h : find_btc_base_size l = some b) :
    ∃ a ∈ l, a.currency = some "BTC" ∧ a.available_value = some b ∧ 0 < b := by
  induction l with
  | nil => simp [find_btc_base_size] at h
  | cons a t ih =>
    rw [find_btc_base_size] at h
    by_cases hc : a.currency = some "BTC"
    · rw [if_pos hc] at h
      cases hv : a.available_value with
      | none =>
        simp only [hv] at h
        obtain ⟨x, hx, hp⟩ := ih h
        exact ⟨x, List.mem_cons_of_mem a hx, hp⟩
      | some v =>
        simp only [hv] at h
        by_cases hpos : 0 < v
        · rw [if_pos hpos] at h
          cases h
          exact ⟨a, List.mem_cons_self a t, hc, hv, hpos⟩
        · rw [if_neg hpos] at h
          obtain ⟨x, hx, hp⟩ := ih h
          exact ⟨x, List.mem_cons_of_mem a hx, hp⟩
    · rw [if_neg hc] at h
      obtain ⟨x, hx, hp⟩ := ih h
      exact ⟨x, List.mem_cons_of_mem a hx, hp⟩

/-! ## C1 — buy sizing -/

/-- C1 counterexample. A well-formed buy with `usd_amount = -5` (a
non-positive value) is not replaced by the fallback amount: the submitted
order's `quote_size` is `-5`, not `DEFAULT_USD_AMOUNT`. -/
theorem buy_negative_amount_counterexample :
    ((webhook envFix exFix 1700000000000 rawBuyNeg).orders.map
        fun o => o.order_configuration.quote_size) = [some (-5)] ∧
      ((webhook envFix exFix 1700000000000 rawBuyNeg).orders.map
          fun o => o.order_configuration.quote_size) ≠
        [some DEFAULT_USD_AMOUNT] := by
  constructor
  · decide
  · decide

/-- C1 amended. For every well-formed buy payload with `usd_amount > 0`,
the webhook submits exactly one order whose `quote_size` is that amount
and whose `base_size` is unset; when `usd_amount` is missing (or
unparseable) or zero, the order's `quote_size` is the fallback
`DEFAULT_USD_AMOUNT = 50`. (A negative `usd_amount` is passed through
unchanged, not defaulted.) -/
theorem buy_quote_size_policy (env : Env) (ex : Exchange) (nowMs : ℕ)
    (raw : RawBody) (d : JsonData)
    (hjson : raw.json = some d)
    (henv : require_env_ok env = true)
    (hact : pyLower (pyStrip (d.action.getD "")) = "buy")
    (hsym : normalize_symbol (d.symbol.getD "") = PRODUCT_ID) :
    (∀ a : ℚ, d.usd_amount = some a → 0 < a →
      (webhook env ex nowMs raw).orders =
        [{ client_order_id := nowMs, product_id := PRODUCT_ID, side := "BUY"
           order_configuration :=
             { quote_size := some a, base_size := none } }]) ∧
      (d.usd_amount = none →
        (webhook env ex nowMs raw).orders =
          [{ client_order_id := nowMs, product_id := PRODUCT_ID, side := "BUY"
             order_configuration :=
               { quote_size := some DEFAULT_USD_AMOUNT
                 base_size := none } }]) ∧
      (d.usd_amount = some 0 →
        (webhook env ex nowMs raw).orders =
          [{ client_order_id := nowMs, product_id := PRODUCT_ID, side := "BUY"
             order_configuration :=
               { quote_size := some DEFAULT_USD_AMOUNT
                 base_size := none } }]) := by
  rw [webhook_buy_shape env ex nowMs raw d (parse_body_json raw d hjson)
    henv hact hsym]
  refine ⟨fun a ha hpos => ?_, fun hnone => ?_, fun h0 => ?_⟩
  · simp [ha, pyOrQ, hpos.ne', apply_ite WebhookOut.orders]
  · simp [hnone, pyOrQ, DEFAULT_USD_AMOUNT, apply_ite WebhookOut.orders]
  · simp [h0, pyOrQ, DEFAULT_USD_AMOUNT, apply_ite WebhookOut.orders]

/-- C1 witness: the buy of the spec's end-to-end example
(`{"action":"buy","symbol":"BTCUSDC","usd_amount":100}`) is submitted
with `quote_size = 100` and no `base_size`. -/
theorem buy_quote_size_policy_witness :
    (webhook envFix exFix 1700000000000 rawBuy100).orders =
      [{ client_order_id := 1700000000000, product_id := PRODUCT_ID
         side := "BUY"
         order_configuration :=
           { quote_size := some 100, base_size := none } }] :=
  (buy_quote_size_policy envFix exFix 1700000000000 rawBuy100
      { action := some "buy", symbol := some "BTCUSDC", usd_amount := some 100 }
      rfl rfl rfl (by decide)).1 100 rfl (by decide)

/-! ## C2 — sell sizing from live balance -/

/-- C2. On a sell instruction in a healthy environment with a successful
accounts fetch: when the balance scan finds a positive BTC balance `b`,
exactly one order is submitted, its `base_size` equals `b` exactly (and
`quote_size` is unset), and `b` is the `available_balance.value` of a BTC
entry of the freshly fetched accounts; when the scan finds nothing (entry
absent or value not positive), no order is submitted and the webhook
answers 400 with the no-balance error. -/
theorem sell_base_size_spec (env : Env) (ex : Exchange) (nowMs : ℕ)
    (raw : RawBody) (d : JsonData)
    (hjson : raw.json = some d)
    (henv : require_env_ok env = true)
    (hact : pyLower (pyStrip (d.action.getD "")) = "sell")
    (hsym : normalize_symbol (d.symbol.getD "") = PRODUCT_ID)
    (hacc : ex.accountsStatus < 300) :
    (∀ b : ℚ, find_btc_base_size ex.accounts = some b →
      (webhook env ex nowMs raw).orders =
          [{ client_order_id := nowMs, product_id := PRODUCT_ID
             side := "SELL"
             order_configuration :=
               { quote_size := none, base_size := some b } }] ∧
        ∃ a ∈ ex.accounts, a.currency = some "BTC" ∧
          a.available_value = some b ∧ 0 < b) ∧
      (find_btc_base_size ex.accounts = none →
        (webhook env ex nowMs raw).resp = .noBalance ∧
          (webhook env ex nowMs raw).status = 400 ∧
          (webhook env ex nowMs raw).orders = []) := by
  rw [webhook_sell_shape env ex nowMs raw d (parse_body_json raw d hjson)
    henv hact hsym]
  rw [if_neg (by omega)]
  refine ⟨fun b hb => ?_, fun hb => ?_⟩
  · rw [hb]
    exact ⟨by simp [apply_ite WebhookOut.orders],
      find_btc_base_size_mem ex.accounts b hb⟩
  · rw [hb]
    exact ⟨rfl, rfl, rfl⟩

/-- C2 witness: selling with a 2 BTC balance submits one order with
`base_size = 2`. -/
theorem sell_base_size_spec_witness :
    (webhook envFix exSell 1700000000000 rawSell).orders =
        [{ client_order_id := 1700000000000, product_id := PRODUCT_ID
           side := "SELL"
           order_configuration :=
             { quote_size := none, base_size := some 2 } }] ∧
      ∃ a ∈ exSell.accounts, a.currency = some "BTC" ∧
        a.available_value = some 2 ∧ 0 < (2 : ℚ) :=
  (sell_base_size_spec envFix exSell 1700000000000 rawSell
      { action := some "sell", symbol := some "BTC-USDC", usd_amount := none }
      rfl rfl rfl (by decide) (by decide)).1 2 (by decide)

/-! ## C5 — bad payloads cause no exchange traffic -/

/-- C5. When the body is not valid JSON and its trimmed upper-cased text
starts with neither `BUY` nor `SELL`, the webhook answers 400 with the
bad-payload error, submits no order, and performs no exchange call at all
(no token signing and no outbound HTTP event). -/
theorem bad_payload_no_exchange_call (env : Env) (ex : Exchange)
    (nowMs : ℕ) (raw : RawBody)
    (hjson : raw.json = none)
    (hbuy : pyStartsWith (pyUpper (pyStrip raw.text)) "BUY" = false)
    (hsell : pyStartsWith (pyUpper (pyStrip raw.text)) "SELL" = false) :
    webhook env ex nowMs raw =
      { resp := .badPayload, status := 400, orders := [], calls := []
        notifications := [.badPayloadErr] } := by
  have hp : parse_body raw = none := by
    rw [parse_body, hjson]
    simp [hbuy, hsell]
  rw [webhook, hp]

/-- C5 witness: the body `"hello world"` is rejected as a bad payload
with an empty outbound-call trace. -/
theorem bad_payload_no_exchange_call_witness :
    webhook envFix exFix 1700000000000 { json := none, text := "hello world" } =
      { resp := .badPayload, status := 400, orders := [], calls := []
        notifications := [.badPayloadErr] } :=
  bad_payload_no_exchange_call envFix exFix 1700000000000
    { json := none, text := "hello world" } rfl (by decide) (by decide)

/-! ## C6 — action whitelist -/

/-- C6 counterexample. An alert-action payload is not accepted: the
webhook rejects `action = "alert"` with the invalid-action 400 error, it
skips order execution only because it rejects the request, and it
produces no notification at all. -/
theorem alert_action_rejected :
    (webhook envFix exFix 1700000000000 rawAlert).resp = Resp.invalidAction ∧
      (webhook envFix exFix 1700000000000 rawAlert).status = 400 ∧
      (webhook envFix exFix 1700000000000 rawAlert).orders = [] ∧
      (webhook envFix exFix 1700000000000 rawAlert).notifications = [] := by
  refine ⟨by decide, by decide, by decide, by decide⟩

/-- C6 amended. The action field accepts exactly the two values `buy` and
`sell` (compared lowercased after trimming); any other action — including
`alert` — is rejected with the invalid-action 400 error, with no order,
no exchange call and no notification. There is no alert path. -/
theorem action_whitelist_amended (env : Env) (ex : Exchange) (nowMs : ℕ)
    (raw : RawBody) (d : JsonData)
    (hjson : raw.json = some d)
    (henv : require_env_ok env = true)
    (hact1 : pyLower (pyStrip (d.action.getD "")) ≠ "buy")
    (hact2 : pyLower (pyStrip (d.action.getD "")) ≠ "sell") :
    webhook env ex nowMs raw =
      { resp := .invalidAction, status := 400, orders := [], calls := []
        notifications := [] } := by
  have hp := parse_body_json raw d hjson
  simp only [webhook, hp, henv, Bool.not_true, Bool.false_eq_true, if_false]
  simp [hact1, hact2]

/-- C6 witness: the unknown action `hold` is rejected as invalid. -/
theorem action_whitelist_amended_witness :
    webhook envFix exFix 1700000000000 rawHold =
      { resp := .invalidAction, status := 400, orders := [], calls := []
        notifications := [] } :=
  action_whitelist_amended envFix exFix 1700000000000 rawHold
    { action := some "hold", symbol := some "BTC-USDC", usd_amount := none }
    rfl rfl (by decide) (by decide)

/-! ## C7 — daily PnL aggregation -/

/-- C7. The PnL aggregation satisfies `net_pnl = sells_usd - buys_usd -
fees_usd`; a fill with a missing/unparseable trade time is conservatively
retained (counted whenever its size is positive); a fill with a parsed
trade time is counted iff it lies in the trailing 24-hour window and its
size is positive; and on the synthetic fill set — one buy of 0.01 BTC at
60000, one sell of 0.01 BTC at 61000, 1.00 in total fees — the result is
`net_pnl = 610 - 600 - 1 = 9`. -/
theorem daily_pnl_spec :
    (∀ (now : ℚ) (fills : List Fill),
      (compute_daily_pnl now fills).net_pnl =
        (compute_daily_pnl now fills).sells_usd -
          (compute_daily_pnl now fills).buys_usd -
          (compute_daily_pnl now fills).fees_usd) ∧
      (∀ (now : ℚ) (f : Fill), f.trade_time = none → 0 < f.size →
        fill_counted (now - 24 * 3600) f = true) ∧
      (∀ (now : ℚ) (f : Fill) (ts : ℚ), f.trade_time = some ts →
        (fill_counted (now - 24 * 3600) f = true ↔
          (now - 24 * 3600 ≤ ts ∧ 0 < f.size))) ∧
      compute_daily_pnl 1700000000
          [ { side := "BUY", price := 60000, size := 1 / 100, fee := 1 / 2
              trade_time := some 1700000000 },
            { side := "SELL", price := 61000, size := 1 / 100, fee := 1 / 2
              trade_time := some 1700000000 } ] =
        { buys_usd := 600, sells_usd := 610, fees_usd := 1, net_pnl := 9
          trade_count := 2 } := by
  refine ⟨fun now fills => rfl, fun now f hnone hsize => ?_,
    fun now f ts hts => ?_, ?_⟩
  · simp [fill_counted, hnone, hsize]
  · simp [fill_counted, hts]
  · norm_num [compute_daily_pnl, fill_counted, fill_usd,
      show (pyUpper "BUY" == "BUY") = true from rfl,
      show (pyUpper "SELL" == "BUY") = false from rfl,
      show (pyUpper "SELL" == "SELL") = true from rfl,
      show (pyUpper "BUY" == "SELL") = false from rfl]

/-- C7 witness: a timestamp-less fill of positive size is retained, and a
timestamped fill is retained iff it is inside the window. -/
theorem daily_pnl_spec_witness :
    fill_counted ((1700000000 : ℚ) - 24 * 3600)
        { side := "BUY", price := 1, size := 1, fee := 0
          trade_time := none } = true ∧
      (fill_counted ((1700000000 : ℚ) - 24 * 3600)
          { side := "SELL", price := 1, size := 1, fee := 0
            trade_time := some 1700000000 } = true ↔
        ((1700000000 : ℚ) - 24 * 3600 ≤ 1700000000 ∧ 0 < (1 : ℚ))) :=
  ⟨daily_pnl_spec.2.1 1700000000
      { side := "BUY", price := 1, size := 1, fee := 0, trade_time := none }
      rfl (by norm_num),
    daily_pnl_spec.2.2.1 1700000000
      { side := "SELL", price := 1, size := 1, fee := 0
        trade_time := some 1700000000 }
      1700000000 rfl⟩

/-! ## C8 — error propagation -/

/-- C8 counterexample. A failed order placement (exchange answers 503) is
reported to the webhook caller with status 400, not a 5xx status. -/
theorem exchange_error_status_counterexample :
    (webhook envFix exOrderFail 1700000000000 rawBuyPlain).resp =
        Resp.orderFailed ∧
      (webhook envFix exOrderFail 1700000000000 rawBuyPlain).status = 400 ∧
      ¬ 500 ≤ (webhook envFix exOrderFail 1700000000000 rawBuyPlain).status := by
  refine ⟨by decide, by decide, by decide⟩

/-- C8 amended. Validation and balance errors (bad payload, invalid
action, unsupported symbol, no balance) are answered with status 400 and
a human-readable error body; exchange errors (failed order placement or
failed accounts fetch) are answered with status 400 as well — not a
5xx-equivalent — and are additionally pushed to the Notifier as error
alerts. -/
theorem error_propagation_amended (env : Env) (ex : Exchange) (nowMs : ℕ)
    (raw : RawBody) :
    ((webhook env ex nowMs raw).resp = .badPayload ∨
        (webhook env ex nowMs raw).resp = .invalidAction ∨
        (∃ s, (webhook env ex nowMs raw).resp = .unsupportedSymbol s) ∨
        (webhook env ex nowMs raw).resp = .noBalance →
      (webhook env ex nowMs raw).status = 400) ∧
      ((webhook env ex nowMs raw).resp = .orderFailed ∨
          (webhook env ex nowMs raw).resp = .accountsFailed →
        (webhook env ex nowMs raw).status = 400 ∧
          ∃ n ∈ (webhook env ex nowMs raw).notifications,
            is_error_alert n = true) := by
  simp only [webhook]
  repeat' split
  all_goals simp [is_error_alert]

/-- C8 witness: the failed buy placement is answered 400 and pushed to
the Notifier as an error alert. -/
theorem error_propagation_amended_witness :
    (webhook envFix exOrderFail 1700000000000 rawBuyPlain).status = 400 ∧
      ∃ n ∈ (webhook envFix exOrderFail 1700000000000 rawBuyPlain).notifications,
        is_error_alert n = true :=
  (error_propagation_amended envFix exOrderFail 1700000000000
      rawBuyPlain).2 (Or.inl (by decide))

/-! ## C9 — client order id -/

theorem build_client_order_id (nowMs : ℕ) (side : String)
    (usd b : Option ℚ) (o : Order)
    (h : build_market_order nowMs side usd b = .ok o) :
    o.client_order_id = nowMs := by
  unfold build_market_order at h
  split at h
  · injection h with h2
    rw [← h2]
  · split at h
    · cases h
    · injection h with h2
      rw [← h2]

/-- C9 counterexample. Two distinct order submissions made in the same
millisecond (`int(time.time() * 1000)` equal) carry the same
`client_order_id`: a buy and a sell submitted at the same `nowMs` are
different orders with identical idempotency tokens, so the token is not
unique per submission. -/
theorem client_order_id_collision :
    ((webhook envFix exFix 1700000000000 rawBuyPlain).orders.map
        Order.client_order_id =
      (webhook envFix exSell 1700000000000 rawSell).orders.map
        Order.client_order_id) ∧
      (webhook envFix exFix 1700000000000 rawBuyPlain).orders ≠
        (webhook envFix exSell 1700000000000 rawSell).orders ∧
      (webhook envFix exFix 1700000000000 rawBuyPlain).orders.length = 1 ∧
      (webhook envFix exSell 1700000000000 rawSell).orders.length = 1 := by
  refine ⟨by decide, by decide, by decide, by decide⟩

/-- C9 amended. Every order carries a client-supplied idempotency token
derived from the current timestamp in milliseconds; two submissions carry
distinct tokens whenever their millisecond timestamps differ (but
submissions within the same millisecond share one token). -/
theorem client_order_id_distinct_of_ms (t1 t2 : ℕ) (s1 s2 : String)
    (u1 u2 b1 b2 : Option ℚ) (o1 o2 : Order)
    (h1 : build_market_order t1 s1 u1 b1 = .ok o1)
    (h2 : build_market_order t2 s2 u2 b2 = .ok o2)
    (hne : t1 ≠ t2) :
    o1.client_order_id ≠ o2.client_order_id := by
  rw [build_client_order_id t1 s1 u1 b1 o1 h1,
    build_client_order_id t2 s2 u2 b2 o2 h2]
  exact hne

/-- C9 witness: buys built at two different milliseconds carry different
tokens. -/
theorem client_order_id_distinct_of_ms_witness :
    ({ client_order_id := 1700000000001, product_id := PRODUCT_ID
       side := "BUY"
       order_configuration :=
         { quote_size := some DEFAULT_USD_AMOUNT
           base_size := none } } : Order).client_order_id ≠
      ({ client_order_id := 1700000000002, product_id := PRODUCT_ID
         side := "BUY"
         order_configuration :=
           { quote_size := some DEFAULT_USD_AMOUNT
             base_size := none } } : Order).client_order_id :=
  client_order_id_distinct_of_ms 1700000000001 1700000000002 "buy" "buy"
    none none none none _ _ rfl rfl (by decide)

/-! ## C10 — plain-text BUY fallback -/

theorem scan_symbol_cases (tokens : List String) :
    scan_symbol tokens = none ∨ scan_symbol tokens = some "BTCUSDC" ∨
      scan_symbol tokens = some "BTC-USDC" := by
  unfold scan_symbol
  rcases hf : tokens.find? (fun t => t == "BTCUSDC" || t == "BTC-USDC")
    with _ | t
  · exact Or.inl rfl
  · have hp := List.find?_some hf
    simp only [Bool.or_eq_true, beq_iff_eq] at hp
    rcases hp with h | h
    · exact Or.inr (Or.inl (by rw [h]))
    · exact Or.inr (Or.inr (by rw [h]))

theorem fallback_symbol_normalizes (tokens : List String) :
    normalize_symbol ((scan_symbol tokens).getD PRODUCT_ID) = PRODUCT_ID := by
  rcases scan_symbol_cases tokens with h | h | h <;> rw [h] <;> decide

/-- C10. For a body that is not valid JSON but starts (after trimming and
upper-casing) with `BUY`, the synthesized instruction carries no amount —
its symbol is the first whitespace-delimited token equal to `BTCUSDC` or
`BTC-USDC`, defaulting to `BTC-USDC` — and the buy order submitted is
always sized at the fallback `quote_size = DEFAULT_USD_AMOUNT = 50` for
the product `BTC-USDC`, with no `base_size`. -/
theorem text_fallback_buy_default (env : Env) (ex : Exchange) (nowMs : ℕ)
    (raw : RawBody)
    (hjson : raw.json = none)
    (hbuy : pyStartsWith (pyUpper (pyStrip raw.text)) "BUY" = true)
    (henv : require_env_ok env = true) :
    parse_body raw =
        some { action := some "buy"
               symbol := some ((scan_symbol
                 (pySplit (pyUpper (pyStrip raw.text)))).getD PRODUCT_ID)
               usd_amount := none } ∧
      (webhook env ex nowMs raw).orders =
        [{ client_order_id := nowMs, product_id := PRODUCT_ID, side := "BUY"
           order_configuration :=
             { quote_size := some DEFAULT_USD_AMOUNT
               base_size := none } }] := by
  have hp : parse_body raw =
      some { action := some "buy"
             symbol := some ((scan_symbol
               (pySplit (pyUpper (pyStrip raw.text)))).getD PRODUCT_ID)
             usd_amount := none } := by
    rw [parse_body, hjson]
    simp [hbuy]
  refine ⟨hp, ?_⟩
  rw [webhook_buy_shape env ex nowMs raw
    { action := some "buy"
      symbol := some ((scan_symbol
        (pySplit (pyUpper (pyStrip raw.text)))).getD PRODUCT_ID)
      usd_amount := none }
    hp henv rfl (fallback_symbol_normalizes _)]
  simp [pyOrQ, apply_ite WebhookOut.orders]

/-- C10 witness: the plain-text body `"BUY BTCUSDC 42"` produces a buy
sized at the default 50, ignoring the `42` in the text. -/
theorem text_fallback_buy_default_witness :
    parse_body rawTextBuy =
        some { action := some "buy"
               symbol := some ((scan_symbol
                 (pySplit (pyUpper (pyStrip rawTextBuy.text)))).getD PRODUCT_ID)
               usd_amount := none } ∧
      (webhook envFix exFix 1700000000000 rawTextBuy).orders =
        [{ client_order_id := 1700000000000, product_id := PRODUCT_ID
           side := "BUY"
           order_configuration :=
             { quote_size := some DEFAULT_USD_AMOUNT
               base_size := none } }] :=
  text_fallback_buy_default envFix exFix 1700000000000 rawTextBuy
    rfl (by decide) rfl

end TVBot
